import Mathlib

/-!
# Verification of the Blovi contact-form backend (`main.py`)

Shallow embedding of the single-file FastAPI service: environment-variable
reading, SMTP configuration resolution (direct `SMTP_*` variables with a
Gmail-alias fallback), the primary SMTP delivery path, the Mailgun HTTP
fallback, the HTML body rendering of the contact handler, and the
health-check handler.

Python conventions modelled explicitly:
* `os.getenv` returns `Option String` (absent variable = `none`);
  `os.getenv(k, d)` is `getenvD` (a variable set to the empty string
  yields `""`, not the default).
* Python truthiness of an optional string (`pyTruthy`): `None` and `""`
  are falsy, every non-empty string is truthy.
* `a or b` on optional strings is `pyOr`.
* `int(s)` is `pyIntParse` (strip surrounding whitespace, optional sign,
  decimal digits); failure models the `ValueError` the source would raise.
* Network effects are parameters: the SMTP session outcome is an
  `SmtpNet` value, the Mailgun HTTP interaction an `HttpResult` value,
  and the current time a `PyDatetime` / timestamp-string argument.
-/

/-- A process environment: an association list of set variables.
`os.getenv` of an absent name is `none`. -/
def Env : Type := List (String × String)

/-- Model of `os.getenv(key)` — first binding wins, absent gives `none`. -/
def getenv (env : Env) (key : String) : Option String :=
  List.lookup key env

/-- Model of `os.getenv(key, default)` — the default is used only when the
variable is absent (a variable set to `""` yields `""`). -/
def getenvD (env : Env) (key default : String) : String :=
  (getenv env key).getD default

/-- Python truthiness of an optional string: `None` and `""` are falsy. -/
def pyTruthy : Option String → Bool
  | none => false
  | some s => !s.isEmpty

/-- Python `a or b` on optional strings: `a` when truthy, else `b`. -/
def pyOr (a b : Option String) : Option String :=
  if pyTruthy a then a else b

/-- Python whitespace characters (the ASCII range matched by `\s`). -/
def pyIsSpace (c : Char) : Bool :=
  c = ' ' || c = '\t' || c = '\n' || c = '\x0d' || c = '\x0b' || c = '\x0c'

/-- Model of `re.sub(r"\s+", "", s)`: remove every whitespace character of `s`. -/
def stripWhitespace (s : String) : String :=
  String.mk (s.data.filter (fun c => !pyIsSpace c))

/-- Digit string to number, for `pyIntParse`. -/
def natFromDigits (l : List Char) : Nat :=
  l.foldl (fun a c => 10 * a + (c.toNat - 48)) 0

/-- Strip leading and trailing whitespace from a character list. -/
def trimChars (l : List Char) : List Char :=
  ((l.dropWhile pyIsSpace).reverse.dropWhile pyIsSpace).reverse

/-- Python `int(s)`: strip surrounding whitespace, optional sign, decimal
digits; `none` models the `ValueError` raised on anything else. -/
def pyIntParse (s : String) : Option Int :=
  match trimChars s.data with
  | '-' :: rest =>
      if rest ≠ [] ∧ rest.all Char.isDigit then some (-(natFromDigits rest : Int)) else none
  | '+' :: rest =>
      if rest ≠ [] ∧ rest.all Char.isDigit then some (natFromDigits rest : Int) else none
  | l =>
      if l ≠ [] ∧ l.all Char.isDigit then some (natFromDigits l : Int) else none

/-- Recipient constant `TARGET_EMAIL` (main.py lines 30–35): the chain
`CONTACT_TARGET_EMAIL or RECEIVER_EMAIL or TARGET_EMAIL or "founders@blovi.ai"`,
evaluated once at module load; here a function of the environment. -/
def TARGET_EMAIL (env : Env) : String :=
  match pyOr (pyOr (getenv env "CONTACT_TARGET_EMAIL") (getenv env "RECEIVER_EMAIL"))
        (getenv env "TARGET_EMAIL") with
  | some s => if s.isEmpty then "founders@blovi.ai" else s
  | none => "founders@blovi.ai"

/-- The dictionary returned by `resolve_smtp_config` (main.py lines 70–77). -/
structure SmtpConfig where
  host : String
  port : Int
  user : String
  pass : String
  from_name : String
  from_email : String
deriving DecidableEq, Repr

/-- Final guard and dictionary construction of `resolve_smtp_config`
(main.py lines 65–77): `None` unless host, user and password are all
truthy; `FROM_EMAIL` defaults to the authenticated user (or a no-reply
address when the user is falsy). -/
def finishResolve (env : Env) (smtp_host : Option String) (smtp_port : Int)
    (smtp_user smtp_pass : Option String) : Option SmtpConfig :=
  if pyTruthy smtp_host && pyTruthy smtp_user && pyTruthy smtp_pass then
    some { host := smtp_host.getD ""
           port := smtp_port
           user := smtp_user.getD ""
           pass := smtp_pass.getD ""
           from_name := getenvD env "FROM_NAME" "Blovi Site"
           from_email := getenvD env "FROM_EMAIL"
             (if pyTruthy smtp_user then smtp_user.getD "" else "no-reply@blovi.ai") }
  else none

/-- Alias chain `gmail_user = os.getenv("GMAIL_USER") or os.getenv("GOOGLE_GMAIL_USER")`
(main.py line 55). -/
def gmail_user_env (env : Env) : Option String :=
  pyOr (getenv env "GMAIL_USER") (getenv env "GOOGLE_GMAIL_USER")

/-- Alias chain `gmail_pass = os.getenv("GMAIL_APP_PASSWORD") or
os.getenv("GOOGLE_GMAIL_APP_PASSWORD")` (main.py line 56). -/
def gmail_pass_env (env : Env) : Option String :=
  pyOr (getenv env "GMAIL_APP_PASSWORD") (getenv env "GOOGLE_GMAIL_APP_PASSWORD")

/-- Resolver `resolve_smtp_config` (main.py lines 46–77). Reads the direct
`SMTP_*` variables; when host, user or password is missing or empty it
tries the Gmail alias variables, normalising the app password by removing
whitespace before the fixed `smtp.gmail.com:587` transport is used.
`Except.error` models the `ValueError` of `int(os.getenv("SMTP_PORT", "587"))`. -/
def resolve_smtp_config (env : Env) : Except String (Option SmtpConfig) :=
  match pyIntParse (getenvD env "SMTP_PORT" "587") with
  | none =>
      Except.error ("invalid literal for int() with base 10: " ++ getenvD env "SMTP_PORT" "587")
  | some smtp_port =>
    if pyTruthy (getenv env "SMTP_HOST") && pyTruthy (getenv env "SMTP_USER")
        && pyTruthy (getenv env "SMTP_PASS") then
      Except.ok (finishResolve env (getenv env "SMTP_HOST") smtp_port
        (getenv env "SMTP_USER") (getenv env "SMTP_PASS"))
    else
      if pyTruthy (gmail_user_env env) && pyTruthy (gmail_pass_env env) then
        Except.ok (finishResolve env (some "smtp.gmail.com") 587 (gmail_user_env env)
          (some (stripWhitespace ((gmail_pass_env env).getD ""))))
      else
        Except.ok (finishResolve env (getenv env "SMTP_HOST") smtp_port
          (getenv env "SMTP_USER") (getenv env "SMTP_PASS"))

example : pyIntParse "587" = some 587 := by decide
example : resolve_smtp_config [] = Except.ok none := by rfl
example : resolve_smtp_config [("SMTP_HOST", "h"), ("SMTP_USER", "u"), ("SMTP_PASS", "p")] =
    Except.ok (some { host := "h", port := 587, user := "u", pass := "p",
                      from_name := "Blovi Site", from_email := "u" }) := by rfl
example : resolve_smtp_config [("GMAIL_USER", "g"), ("GMAIL_APP_PASSWORD", "ab cd")] =
    Except.ok (some { host := "smtp.gmail.com", port := 587, user := "g", pass := "abcd",
                      from_name := "Blovi Site", from_email := "g" }) := by rfl
example : resolve_smtp_config [("GMAIL_USER", "g"), ("GMAIL_APP_PASSWORD", " ")] =
    Except.ok none := by rfl

/-- The request schema `ContactEmailRequest` (main.py lines 37–43):
six optional string fields (the email field is additionally
format-validated by the framework, which does not affect rendering). -/
structure ContactEmailRequest where
  name : Option String := none
  company : Option String := none
  email : Option String := none
  phone : Option String := none
  message : Option String := none
  source : Option String := none
deriving DecidableEq, Repr

/-- The `details` list built by `contact_email` (main.py lines 136–146):
one labelled line appended per truthy field, in source order. -/
def details (p : ContactEmailRequest) : List String :=
  (if pyTruthy p.name then ["<b>Name:</b> " ++ p.name.getD ""] else []) ++
  (if pyTruthy p.company then ["<b>Company:</b> " ++ p.company.getD ""] else []) ++
  (if pyTruthy p.email then ["<b>Email:</b> " ++ p.email.getD ""] else []) ++
  (if pyTruthy p.phone then ["<b>Phone:</b> " ++ p.phone.getD ""] else []) ++
  (if pyTruthy p.source then ["<b>Source:</b> " ++ p.source.getD ""] else [])

/-- Value `message_html = payload.message or ""` (main.py line 148). -/
def message_html (p : ContactEmailRequest) : String :=
  (p.message).getD ""

/-- The conditional details paragraph of the body f-string (main.py line 154). -/
def detailsSection (p : ContactEmailRequest) : String :=
  if (details p).isEmpty then ""
  else "<p style=\"margin:0 0 12px\">" ++ String.intercalate "<br/>" (details p) ++ "</p>"

/-- The conditional message block of the body f-string (main.py line 155). -/
def messageSection (p : ContactEmailRequest) : String :=
  if (message_html p).isEmpty then ""
  else "<div style=\"padding:12px;background:#f8fafc;border-radius:8px;border:1px solid #e2e8f0\"><b>Message</b><br/>"
       ++ message_html p ++ "</div>"

/-- The rendered HTML body of `contact_email` (main.py lines 150–157),
with the request-time timestamp string `ts` as a parameter. -/
def html_body (p : ContactEmailRequest) (ts : String) : String :=
  "\n    <div style='font-family:Inter,system-ui,-apple-system,Segoe UI,Roboto,Helvetica,Arial,sans-serif;line-height:1.5;'>\n      <h2 style='margin:0 0 8px'>New contact from Blovi site</h2>\n      <p style='margin:0 0 12px;color:#334155'>Received at "
  ++ ts ++ "</p>\n      " ++ detailsSection p ++ "\n      " ++ messageSection p
  ++ "\n    </div>\n    "

/-- Model of `email.utils.formataddr((name, addr))`, for the plain display names
used here: `Name <addr>`, or just the address for an empty name. -/
def formataddr (name addr : String) : String :=
  if name.isEmpty then addr else name ++ " <" ++ addr ++ ">"

/-- The MIME message headers and SMTP envelope assembled by
`send_via_smtp` (main.py lines 87–95). -/
structure SmtpMessage where
  subject : String
  from_header : String
  to_header : String
  envelope_from : String
  envelope_to : List String
  html : String
deriving DecidableEq, Repr

/-- Message construction of `send_via_smtp` (main.py lines 87–95):
both the `To:` header and the envelope recipient list use `TARGET_EMAIL`. -/
def smtp_message (env : Env) (cfg : SmtpConfig) (subject html_body : String) : SmtpMessage :=
  { subject := subject
    from_header := formataddr cfg.from_name cfg.from_email
    to_header := TARGET_EMAIL env
    envelope_from := cfg.from_email
    envelope_to := [TARGET_EMAIL env]
    html := html_body }

/-- Outcome of the SMTP network session (connect, STARTTLS, login,
sendmail): delivered, or an exception carrying the transport error text. -/
inductive SmtpNet where
  | delivered
  | failure (msg : String)
deriving DecidableEq, Repr

/-- Primary path `send_via_smtp` (main.py lines 80–95). Raises (models: `Except.error`)
when no configuration resolves, propagates the `ValueError` of the port
parse, and otherwise submits the message over the network whose outcome
is the `net` parameter; on success the submitted message is returned. -/
def send_via_smtp (env : Env) (subject html_body : String) (net : SmtpNet) :
    Except String SmtpMessage :=
  match resolve_smtp_config env with
  | Except.error e => Except.error e
  | Except.ok none =>
      Except.error "Email service not configured: set SMTP_HOST, SMTP_USER, SMTP_PASS (or GMAIL_USER + GMAIL_APP_PASSWORD)"
  | Except.ok (some cfg) =>
      match net with
      | SmtpNet.delivered => Except.ok (smtp_message env cfg subject html_body)
      | SmtpNet.failure m => Except.error m

/-- Outcome of the Mailgun HTTP interaction: a response status code, or
an exception raised by the HTTP client. -/
inductive HttpResult where
  | status (code : Nat)
  | exn (msg : String)
deriving DecidableEq, Repr

/-- Predicate for `response.raise_for_status()`: it raises for 4xx/5xx responses; an
exception from the request itself also lands in the `except` block. -/
def raise_for_status_raises : HttpResult → Bool
  | HttpResult.status code => 400 ≤ code && code < 600
  | HttpResult.exn _ => true

/-- Sender `from_email` of `send_via_mailgun` (main.py line 102). Python parses
the line as `(os.getenv("FROM_EMAIL") or f"no-reply@{domain}") if domain
else None`. -/
def mailgun_from_email (env : Env) : Option String :=
  let domain := getenv env "MAILGUN_DOMAIN"
  if pyTruthy domain then pyOr (getenv env "FROM_EMAIL") (some ("no-reply@" ++ domain.getD ""))
  else none

/-- The precondition guard of `send_via_mailgun` (main.py line 104):
API key, domain and sender address all truthy. -/
def mailgun_configured (env : Env) : Bool :=
  pyTruthy (getenv env "MAILGUN_API_KEY") && pyTruthy (getenv env "MAILGUN_DOMAIN")
    && pyTruthy (mailgun_from_email env)

/-- The form data of the Mailgun POST (main.py lines 108–113): the
recipient list is `[TARGET_EMAIL]`. -/
structure MailgunData where
  from_field : String
  to_field : List String
  subject : String
  html : String
deriving DecidableEq, Repr

/-- Construction of the Mailgun form data (main.py lines 108–113). -/
def mailgun_data (env : Env) (subject html_body : String) : MailgunData :=
  { from_field := getenvD env "FROM_NAME" "Blovi Site" ++ " <" ++ (mailgun_from_email env).getD "" ++ ">"
    to_field := [TARGET_EMAIL env]
    subject := subject
    html := html_body }

/-- Fallback path `send_via_mailgun` (main.py lines 98–119): `False` when the guard
fails, `True` when the POST succeeds with a non-error status, `False`
when the POST or `raise_for_status` raises (the `except` swallows every
exception). Total by construction: it never propagates an error. -/
def send_via_mailgun (env : Env) (net : HttpResult) : Bool :=
  if mailgun_configured env then !raise_for_status_raises net else false

/-- The JSON value returned by the contact handler: `{"ok": true}`,
`{"ok": true, "via": provider}`, or an `HTTPException(status, detail)`. -/
inductive ContactResult where
  | ok
  | okVia (provider : String)
  | error (status : Nat) (detail : String)
deriving DecidableEq, Repr

/-- The `contact_email` handler (main.py lines 131–168), with the
timestamp string and both network outcomes as parameters: try SMTP; on
any exception try Mailgun; otherwise raise `HTTPException(500, ...)`
carrying the primary error's text. -/
def contact_email (env : Env) (p : ContactEmailRequest) (ts : String)
    (smtpNet : SmtpNet) (mgNet : HttpResult) : ContactResult :=
  match send_via_smtp env "New Blovi contact request" (html_body p ts) smtpNet with
  | Except.ok _ => ContactResult.ok
  | Except.error smtp_err =>
      if send_via_mailgun env mgNet then ContactResult.okVia "mailgun"
      else ContactResult.error 500 ("Email send failed: " ++ smtp_err)

example :
    contact_email [] { name := some "Ada" } "t" SmtpNet.delivered (HttpResult.status 200) =
      ContactResult.error 500
        "Email send failed: Email service not configured: set SMTP_HOST, SMTP_USER, SMTP_PASS (or GMAIL_USER + GMAIL_APP_PASSWORD)" := by
  rfl

example :
    contact_email [("MAILGUN_API_KEY", "k"), ("MAILGUN_DOMAIN", "mg.example.com")]
      {} "t" SmtpNet.delivered (HttpResult.status 200) = ContactResult.okVia "mailgun" := by
  rfl

example :
    contact_email [("SMTP_HOST", "h"), ("SMTP_USER", "u"), ("SMTP_PASS", "p")]
      {} "t" SmtpNet.delivered (HttpResult.exn "x") = ContactResult.ok := by
  rfl

/-- A `datetime.datetime` value in UTC. Python enforces
`1 ≤ year ≤ 9999`, `month ≤ 12`, `day ≤ 31`, `hour < 24`, `minute < 60`,
`second < 60`, `microsecond < 10^6`; within those ranges the fixed-width
digit extraction below agrees with CPython's formatting. -/
structure PyDatetime where
  year : Nat
  month : Nat
  day : Nat
  hour : Nat
  minute : Nat
  second : Nat
  microsecond : Nat
deriving DecidableEq, Repr

/-- The decimal digit character of `n mod 10`. -/
def digit (n : Nat) : Char :=
  Nat.digitChar (n % 10)

/-- Two-digit zero-padded decimal rendering (`%02d`). -/
def pad2Chars (n : Nat) : List Char :=
  [digit (n / 10), digit n]

/-- Four-digit zero-padded decimal rendering (`%04d`). -/
def pad4Chars (n : Nat) : List Char :=
  [digit (n / 1000), digit (n / 100), digit (n / 10), digit n]

/-- Six-digit zero-padded decimal rendering (`%06d`). -/
def pad6Chars (n : Nat) : List Char :=
  [digit (n / 100000), digit (n / 10000), digit (n / 1000), digit (n / 100), digit (n / 10), digit n]

/-- Character sequence of `datetime.isoformat()` for an aware UTC value:
`YYYY-MM-DDTHH:MM:SS[.ffffff]+00:00`, the fractional part present only
for a non-zero microsecond field. -/
def isoChars (dt : PyDatetime) : List Char :=
  pad4Chars dt.year ++ '-' :: pad2Chars dt.month ++ '-' :: pad2Chars dt.day
    ++ 'T' :: pad2Chars dt.hour ++ ':' :: pad2Chars dt.minute ++ ':' :: pad2Chars dt.second
    ++ (if dt.microsecond = 0 then [] else '.' :: pad6Chars dt.microsecond)
    ++ ['+', '0', '0', ':', '0', '0']

/-- Rendering of `datetime.now(timezone.utc).isoformat()` (main.py line 126). -/
def isoformat (dt : PyDatetime) : String :=
  String.mk (isoChars dt)

/-- Recogniser for the optional tail of an ISO-8601 UTC timestamp:
`+00:00`, optionally preceded by `.ffffff`. -/
def isoTailOk : List Char → Bool
  | [a, b, c, d, e, f] =>
      a == '+' && b == '0' && c == '0' && d == ':' && e == '0' && f == '0'
  | [a, u1, u2, u3, u4, u5, u6, b, c, d, e, f, g] =>
      a == '.' && ([u1, u2, u3, u4, u5, u6].all Char.isDigit)
        && b == '+' && c == '0' && d == '0' && e == ':' && f == '0' && g == '0'
  | _ => false

/-- Recogniser for an ISO-8601 UTC timestamp with explicit offset:
`YYYY-MM-DDTHH:MM:SS[.ffffff]+00:00`. -/
def isIso8601UtcChars : List Char → Bool
  | y1 :: y2 :: y3 :: y4 :: c1 :: m1 :: m2 :: c2 :: d1 :: d2 :: c3
      :: h1 :: h2 :: c4 :: n1 :: n2 :: c5 :: s1 :: s2 :: rest =>
      ([y1, y2, y3, y4, m1, m2, d1, d2, h1, h2, n1, n2, s1, s2].all Char.isDigit)
        && c1 == '-' && c2 == '-' && c3 == 'T' && c4 == ':' && c5 == ':'
        && isoTailOk rest
  | _ => false

/-- A string parses as an ISO-8601 UTC timestamp. -/
def isIso8601Utc (s : String) : Bool :=
  isIso8601UtcChars s.data

/-- The JSON value returned by the health-check handler. -/
structure HealthResponse where
  ok : Bool
  time : String
  target_email : String
deriving DecidableEq, Repr

/-- The health-check handler `test` (main.py lines 122–128), with the
current UTC time as a parameter: a pure function of environment and
clock — no side effects, no request inputs. -/
def test (env : Env) (now : PyDatetime) : HealthResponse :=
  { ok := true
    time := isoformat now
    target_email := TARGET_EMAIL env }

example : isIso8601Utc (isoformat ⟨2026, 10, 12, 9, 30, 5, 123456⟩) = true := by decide
example : isIso8601Utc (isoformat ⟨2026, 10, 12, 9, 30, 5, 0⟩) = true := by decide
example : isoformat ⟨2026, 10, 12, 9, 30, 5, 0⟩ = "2026-10-12T09:30:05+00:00" := by decide

/-! ## Rendering structure of the contact body -/

/-- The submission fields, for stating rendering properties. -/
inductive SubmissionField where
  | name | company | email | phone | source | message
deriving DecidableEq, Repr

/-- The value a submission carries for a field. -/
def fieldValue (p : ContactEmailRequest) : SubmissionField → Option String
  | SubmissionField.name => p.name
  | SubmissionField.company => p.company
  | SubmissionField.email => p.email
  | SubmissionField.phone => p.phone
  | SubmissionField.source => p.source
  | SubmissionField.message => p.message

/-- The fixed order in which fields appear in the rendered body: the five
detail lines in source order, then the message block. -/
def renderOrder : List SubmissionField :=
  [SubmissionField.name, SubmissionField.company, SubmissionField.email, SubmissionField.phone, SubmissionField.source, SubmissionField.message]

/-- The labelled line the body renders for a field: `<b>Label:</b> value`
for the detail fields, and the labelled content of the message block for
the message field. -/
def fieldLine (p : ContactEmailRequest) : SubmissionField → String
  | SubmissionField.name => "<b>Name:</b> " ++ p.name.getD ""
  | SubmissionField.company => "<b>Company:</b> " ++ p.company.getD ""
  | SubmissionField.email => "<b>Email:</b> " ++ p.email.getD ""
  | SubmissionField.phone => "<b>Phone:</b> " ++ p.phone.getD ""
  | SubmissionField.source => "<b>Source:</b> " ++ p.source.getD ""
  | SubmissionField.message => "<b>Message</b><br/>" ++ message_html p

/-- The labelled lines of the rendered body, in body order: the entries
of the `details` paragraph followed by the labelled content of the
message block when it is rendered (main.py lines 136–155). -/
def renderedFieldLines (p : ContactEmailRequest) : List String :=
  details p ++ (if (message_html p).isEmpty then [] else ["<b>Message</b><br/>" ++ message_html p])

theorem message_html_isEmpty (p : ContactEmailRequest) :
    (message_html p).isEmpty = !pyTruthy p.message := by
  unfold message_html pyTruthy
  cases p.message <;> simp [String.isEmpty_iff]

/-- C1: for every submission, the labelled lines of the rendered body are
exactly one line per truthy field, in the fixed order
name, company, email, phone, source, message, and none for the rest. -/
theorem contact_body_one_line_per_present_field (p : ContactEmailRequest) :
    renderedFieldLines p
      = (renderOrder.filter (fun f => pyTruthy (fieldValue p f))).map (fieldLine p) := by
  unfold renderedFieldLines renderOrder
  rw [message_html_isEmpty]
  cases hn : pyTruthy p.name <;> cases hc : pyTruthy p.company <;>
    cases he : pyTruthy p.email <;> cases hp : pyTruthy p.phone <;>
    cases hs : pyTruthy p.source <;> cases hm : pyTruthy p.message <;>
    simp [details, fieldValue, fieldLine, hn, hc, he, hp, hs, hm]

/-- C7: the all-absent submission renders to the fixed frame with only
the timestamp line — no detail paragraph, no message block — and the
handler still succeeds when delivery succeeds. -/
theorem empty_submission_renders_timestamp_only (ts : String) :
    html_body {} ts
      = "\n    <div style='font-family:Inter,system-ui,-apple-system,Segoe UI,Roboto,Helvetica,Arial,sans-serif;line-height:1.5;'>\n      <h2 style='margin:0 0 8px'>New contact from Blovi site</h2>\n      <p style='margin:0 0 12px;color:#334155'>Received at "
        ++ ts ++ "</p>\n      \n      \n    </div>\n    "
    ∧ details {} = []
    ∧ contact_email [("SMTP_HOST", "h"), ("SMTP_USER", "u"), ("SMTP_PASS", "p")] {} ts
        SmtpNet.delivered (HttpResult.status 200) = ContactResult.ok := by
  refine ⟨?_, rfl, rfl⟩
  unfold html_body detailsSection messageSection
  simp [details, message_html, pyTruthy, String.append_assoc,
    show ("" : String).isEmpty = true from rfl]

/-- Replace fields that are set to the empty string by absent fields. -/
def blankToNone : Option String → Option String
  | some s => if s.isEmpty then none else some s
  | none => none

/-- A submission with every empty-string field replaced by an absent one. -/
def normalizeBlank (p : ContactEmailRequest) : ContactEmailRequest :=
  { name := blankToNone p.name
    company := blankToNone p.company
    email := blankToNone p.email
    phone := blankToNone p.phone
    message := blankToNone p.message
    source := blankToNone p.source }

theorem pyTruthy_blankToNone (o : Option String) : pyTruthy (blankToNone o) = pyTruthy o := by
  unfold blankToNone pyTruthy
  cases o with
  | none => rfl
  | some s => by_cases h : s.isEmpty <;> simp [h]

theorem blankToNone_getD (o : Option String) : (blankToNone o).getD "" = o.getD "" := by
  unfold blankToNone
  cases o with
  | none => rfl
  | some s =>
      by_cases h : s.isEmpty <;> simp [h]
      exact ((String.isEmpty_iff s).mp h).symm

/-- C10: a field set to the empty string renders exactly as an absent
field — the handler tests truthiness, not presence — so the whole body is
unchanged when every empty-string field is replaced by an absent one. -/
theorem blank_fields_render_as_absent (p : ContactEmailRequest) (ts : String) :
    html_body p ts = html_body (normalizeBlank p) ts := by
  unfold html_body detailsSection messageSection details message_html normalizeBlank
  simp [pyTruthy_blankToNone, blankToNone_getD]


/-! ## Configuration resolution claims -/

/-- An environment with the direct host, user and password set but
`SMTP_PORT` absent, and with Gmail alias credentials also available. -/
def envDirectNoPort : Env :=
  [("SMTP_HOST", "smtp.example.com"), ("SMTP_USER", "alice"), ("SMTP_PASS", "pw"),
   ("GMAIL_USER", "g@gmail.com"), ("GMAIL_APP_PASSWORD", "gp")]

/-- C2 counterexample: with `SMTP_PORT` missing (so not all four direct
variables are present) the resolver still uses the direct transport with
the default port 587 — it does not fall through to the Gmail alias
source, whose credentials are set in this environment. -/
theorem resolver_uses_direct_without_port :
    getenv envDirectNoPort "SMTP_PORT" = none
    ∧ resolve_smtp_config envDirectNoPort
        = Except.ok (some { host := "smtp.example.com", port := 587, user := "alice",
                            pass := "pw", from_name := "Blovi Site", from_email := "alice" })
    ∧ ("smtp.example.com" : String) ≠ "smtp.gmail.com" := by
  refine ⟨rfl, rfl, by decide⟩

/-- C2 amended: the direct transport is used exactly when host, user and
secret are present and non-empty — the port is not required and defaults
to 587 — and any configuration produced while one of those three is
missing is the fixed Gmail transport. -/
theorem resolver_direct_requires_host_user_pass :
    (∀ (env : Env) (pt : Int),
      pyTruthy (getenv env "SMTP_HOST") = true →
      pyTruthy (getenv env "SMTP_USER") = true →
      pyTruthy (getenv env "SMTP_PASS") = true →
      pyIntParse (getenvD env "SMTP_PORT" "587") = some pt →
      resolve_smtp_config env
        = Except.ok (some
            { host := (getenv env "SMTP_HOST").getD ""
              port := pt
              user := (getenv env "SMTP_USER").getD ""
              pass := (getenv env "SMTP_PASS").getD ""
              from_name := getenvD env "FROM_NAME" "Blovi Site"
              from_email := getenvD env "FROM_EMAIL" ((getenv env "SMTP_USER").getD "") }))
    ∧ (∀ (env : Env) (cfg : SmtpConfig),
      (pyTruthy (getenv env "SMTP_HOST") && pyTruthy (getenv env "SMTP_USER")
          && pyTruthy (getenv env "SMTP_PASS")) = false →
      resolve_smtp_config env = Except.ok (some cfg) →
      cfg.host = "smtp.gmail.com" ∧ cfg.port = 587) := by
  constructor
  · intro env pt hh hu hp hport
    unfold resolve_smtp_config
    simp only [hport]
    simp [finishResolve, hh, hu, hp]
  · intro env cfg hmiss hok
    unfold resolve_smtp_config at hok
    split at hok
    · exact absurd hok (by simp)
    · rw [hmiss] at hok
      simp only [Bool.false_eq_true, if_false] at hok
      by_cases hg : (pyTruthy (gmail_user_env env) && pyTruthy (gmail_pass_env env)) = true
      · rw [if_pos hg] at hok
        unfold finishResolve at hok
        split at hok
        · simp only [Except.ok.injEq, Option.some.injEq] at hok
          subst hok
          exact ⟨rfl, rfl⟩
        · simp at hok
      · rw [if_neg (by simpa using hg)] at hok
        unfold finishResolve at hok
        rw [hmiss] at hok
        simp at hok

/-- The Gmail-path configuration used to instantiate the fall-through
part of `resolver_direct_requires_host_user_pass`. -/
def gmailCfgW : SmtpConfig :=
  { host := "smtp.gmail.com", port := 587, user := "g", pass := "pw",
    from_name := "Blovi Site", from_email := "g" }

/-- Concrete instantiations of both parts of
`resolver_direct_requires_host_user_pass`. -/
theorem resolver_direct_requires_host_user_pass_witness :
    resolve_smtp_config [("SMTP_HOST", "h"), ("SMTP_USER", "u"), ("SMTP_PASS", "p")]
      = Except.ok (some { host := "h", port := 587, user := "u", pass := "p",
                          from_name := "Blovi Site", from_email := "u" })
    ∧ (gmailCfgW.host = "smtp.gmail.com" ∧ gmailCfgW.port = 587) :=
  ⟨resolver_direct_requires_host_user_pass.1
      [("SMTP_HOST", "h"), ("SMTP_USER", "u"), ("SMTP_PASS", "p")] 587 rfl rfl rfl (by decide),
   resolver_direct_requires_host_user_pass.2
      [("GMAIL_USER", "g"), ("GMAIL_APP_PASSWORD", "pw")] gmailCfgW rfl rfl⟩

/-- An environment whose only credentials are a Gmail user and an
app-password consisting of a single space. -/
def envGmailBlankPass : Env :=
  [("GMAIL_USER", "g@gmail.com"), ("GMAIL_APP_PASSWORD", " ")]

/-- C3 counterexample: the direct variables are incomplete and both Gmail
variables are set (truthy), yet the resolver returns no configuration:
the whitespace-stripped app-password is empty and fails the final guard. -/
theorem gmail_whitespace_password_yields_no_config :
    pyTruthy (getenv envGmailBlankPass "GMAIL_USER") = true
    ∧ pyTruthy (getenv envGmailBlankPass "GMAIL_APP_PASSWORD") = true
    ∧ (pyTruthy (getenv envGmailBlankPass "SMTP_HOST")
        && pyTruthy (getenv envGmailBlankPass "SMTP_USER")
        && pyTruthy (getenv envGmailBlankPass "SMTP_PASS")) = false
    ∧ resolve_smtp_config envGmailBlankPass = Except.ok none :=
  ⟨rfl, rfl, rfl, rfl⟩

/-- C3 amended: when the direct variables are incomplete, both Gmail
variables are truthy, the app-password is not all whitespace, and the
port variable parses, the resolver returns the fixed Gmail transport with
the whitespace-stripped app-password as secret — so two app-passwords
that differ only in whitespace yield the same credential. -/
theorem gmail_alias_resolution (env : Env) (pt : Int)
    (hdirect : (pyTruthy (getenv env "SMTP_HOST") && pyTruthy (getenv env "SMTP_USER")
        && pyTruthy (getenv env "SMTP_PASS")) = false)
    (hport : pyIntParse (getenvD env "SMTP_PORT" "587") = some pt)
    (hgu : pyTruthy (gmail_user_env env) = true)
    (hgp : pyTruthy (gmail_pass_env env) = true)
    (hnz : stripWhitespace ((gmail_pass_env env).getD "") ≠ "") :
    resolve_smtp_config env
      = Except.ok (some
          { host := "smtp.gmail.com"
            port := 587
            user := (gmail_user_env env).getD ""
            pass := stripWhitespace ((gmail_pass_env env).getD "")
            from_name := getenvD env "FROM_NAME" "Blovi Site"
            from_email := getenvD env "FROM_EMAIL" ((gmail_user_env env).getD "") }) := by
  unfold resolve_smtp_config
  simp only [hport]
  rw [hdirect]
  simp only [Bool.false_eq_true, if_false]
  rw [if_pos (by rw [hgu, hgp]; rfl)]
  unfold finishResolve
  have hie : (stripWhitespace ((gmail_pass_env env).getD "")).isEmpty = false := by
    cases hie : (stripWhitespace ((gmail_pass_env env).getD "")).isEmpty with
    | false => rfl
    | true => exact absurd ((String.isEmpty_iff _).mp hie) hnz
  have hps : pyTruthy (some (stripWhitespace ((gmail_pass_env env).getD ""))) = true := by
    simp [pyTruthy, hie]
  rw [hgu, hps]
  simp [hgu, show pyTruthy (some "smtp.gmail.com") = true from rfl]

/-- Concrete instantiation of `gmail_alias_resolution`: the app-password
`"ab cd"` resolves to the credential `"abcd"`. -/
theorem gmail_alias_resolution_witness :
    resolve_smtp_config [("GMAIL_USER", "g"), ("GMAIL_APP_PASSWORD", "ab cd")]
      = Except.ok (some { host := "smtp.gmail.com", port := 587, user := "g", pass := "abcd",
                          from_name := "Blovi Site", from_email := "g" }) := by
  have h := gmail_alias_resolution [("GMAIL_USER", "g"), ("GMAIL_APP_PASSWORD", "ab cd")] 587
    rfl (by decide) rfl rfl (by decide)
  simpa using h

/-! ## Delivery fallback and error handling -/

/-- C4: when no primary transport resolves and the Mailgun guard holds
and the POST succeeds, the handler returns success reporting `mailgun`
as the delivery path. -/
theorem fallback_success_reports_mailgun (env : Env) (p : ContactEmailRequest) (ts : String)
    (smtpNet : SmtpNet) (mgNet : HttpResult)
    (hprimary : resolve_smtp_config env = Except.ok none)
    (hmg : mailgun_configured env = true)
    (hnet : raise_for_status_raises mgNet = false) :
    contact_email env p ts smtpNet mgNet = ContactResult.okVia "mailgun" := by
  unfold contact_email send_via_smtp send_via_mailgun
  rw [hprimary]
  simp [hmg, hnet]

/-- Concrete instantiation of `fallback_success_reports_mailgun`. -/
theorem fallback_success_reports_mailgun_witness :
    contact_email [("MAILGUN_API_KEY", "k"), ("MAILGUN_DOMAIN", "mg.example.com")]
      { name := some "Ada" } "t" SmtpNet.delivered (HttpResult.status 200)
      = ContactResult.okVia "mailgun" :=
  fallback_success_reports_mailgun _ _ _ _ _ rfl rfl rfl

/-- C5: when the primary delivery raises and the fallback does not
succeed, the handler raises `HTTPException(500, ...)` whose detail
carries the primary error's text; no other exception escapes (the
handler is total and this is its only error result). -/
theorem both_paths_fail_gives_500 (env : Env) (p : ContactEmailRequest) (ts : String)
    (smtpNet : SmtpNet) (mgNet : HttpResult) (e : String)
    (hsmtp : send_via_smtp env "New Blovi contact request" (html_body p ts) smtpNet
        = Except.error e)
    (hmg : send_via_mailgun env mgNet = false) :
    contact_email env p ts smtpNet mgNet
      = ContactResult.error 500 ("Email send failed: " ++ e) := by
  unfold contact_email
  rw [hsmtp, hmg]
  simp

/-- Concrete instantiation of `both_paths_fail_gives_500`: neither
provider configured. -/
theorem both_paths_fail_gives_500_witness :
    contact_email [] {} "t" SmtpNet.delivered (HttpResult.exn "boom")
      = ContactResult.error 500
          "Email send failed: Email service not configured: set SMTP_HOST, SMTP_USER, SMTP_PASS (or GMAIL_USER + GMAIL_APP_PASSWORD)" :=
  both_paths_fail_gives_500 [] {} "t" SmtpNet.delivered (HttpResult.exn "boom")
    "Email service not configured: set SMTP_HOST, SMTP_USER, SMTP_PASS (or GMAIL_USER + GMAIL_APP_PASSWORD)"
    rfl rfl

/-- C6: the fallback sender never raises — it is a total function — and
it returns the boolean failure signal both when its preconditions fail
and when the HTTP send raises or returns an error status. -/
theorem mailgun_failure_is_silent (env : Env) (net : HttpResult)
    (h : mailgun_configured env = false ∨ raise_for_status_raises net = true) :
    send_via_mailgun env net = false := by
  unfold send_via_mailgun
  rcases h with h | h <;> simp [h]

/-- Concrete instantiation of `mailgun_failure_is_silent`: no Mailgun
variables are set, and the HTTP client raised. -/
theorem mailgun_failure_is_silent_witness :
    send_via_mailgun [] (HttpResult.exn "connection refused") = false :=
  mailgun_failure_is_silent [] (HttpResult.exn "connection refused") (Or.inl rfl)

/-! ## Recipient resolution -/

/-- An environment whose first recipient override is set to the empty
string and whose second is set to a real address. -/
def envBlankRecipient : Env :=
  [("CONTACT_TARGET_EMAIL", ""), ("RECEIVER_EMAIL", "ops@example.com")]

/-- C8 counterexample: `CONTACT_TARGET_EMAIL` is the first set override
variable, yet the resolved recipient is `RECEIVER_EMAIL`'s value — the
chain skips set-but-empty variables, so the first *set* variable does
not win. -/
theorem recipient_skips_blank_override :
    getenv envBlankRecipient "CONTACT_TARGET_EMAIL" = some ""
    ∧ TARGET_EMAIL envBlankRecipient = "ops@example.com"
    ∧ ("ops@example.com" : String) ≠ "" :=
  ⟨rfl, rfl, by decide⟩

/-- The first entry of a prioritized list that is set to a non-empty
string, else a default — the specification-side recipient rule. -/
def firstTruthyValue : List (Option String) → String → String
  | [], d => d
  | o :: rest, d =>
      match o with
      | some s => if s.isEmpty then firstTruthyValue rest d else s
      | none => firstTruthyValue rest d

/-- C8 amended: the recipient is the first of `CONTACT_TARGET_EMAIL`,
`RECEIVER_EMAIL`, `TARGET_EMAIL` set to a non-empty string, defaulting to
the hardcoded address, and both the SMTP path (header and envelope) and
the Mailgun form data send exactly to this resolved recipient. -/
theorem recipient_priority_and_single_use :
    (∀ env : Env,
      TARGET_EMAIL env
        = firstTruthyValue
            [getenv env "CONTACT_TARGET_EMAIL", getenv env "RECEIVER_EMAIL",
             getenv env "TARGET_EMAIL"] "founders@blovi.ai")
    ∧ (∀ (env : Env) (subject body : String) (net : SmtpNet) (msg : SmtpMessage),
        send_via_smtp env subject body net = Except.ok msg →
        msg.to_header = TARGET_EMAIL env ∧ msg.envelope_to = [TARGET_EMAIL env])
    ∧ (∀ (env : Env) (subject body : String),
        (mailgun_data env subject body).to_field = [TARGET_EMAIL env]) := by
  refine ⟨?_, ?_, ?_⟩
  · intro env
    unfold TARGET_EMAIL
    cases h1 : getenv env "CONTACT_TARGET_EMAIL" <;>
      cases h2 : getenv env "RECEIVER_EMAIL" <;>
      cases h3 : getenv env "TARGET_EMAIL" <;>
      simp [firstTruthyValue, pyOr, pyTruthy, h1, h2, h3] <;>
      split_ifs <;>
      simp_all [firstTruthyValue]
  · intro env subject body net msg hok
    unfold send_via_smtp at hok
    split at hok
    · exact absurd hok (by simp)
    · exact absurd hok (by simp)
    · cases net with
      | delivered =>
          simp only [Except.ok.injEq] at hok
          subst hok
          exact ⟨rfl, rfl⟩
      | failure m => exact absurd hok (by simp)
  · intro env subject body
    rfl

/-- Concrete instantiation of the SMTP part of
`recipient_priority_and_single_use`. -/
theorem recipient_priority_and_single_use_witness :
    (smtp_message [("SMTP_HOST", "h"), ("SMTP_USER", "u"), ("SMTP_PASS", "p"),
        ("CONTACT_TARGET_EMAIL", "boss@example.com")]
      { host := "h", port := 587, user := "u", pass := "p",
        from_name := "Blovi Site", from_email := "u" } "s" "b").to_header
      = TARGET_EMAIL [("SMTP_HOST", "h"), ("SMTP_USER", "u"), ("SMTP_PASS", "p"),
          ("CONTACT_TARGET_EMAIL", "boss@example.com")]
    ∧ (smtp_message [("SMTP_HOST", "h"), ("SMTP_USER", "u"), ("SMTP_PASS", "p"),
        ("CONTACT_TARGET_EMAIL", "boss@example.com")]
      { host := "h", port := 587, user := "u", pass := "p",
        from_name := "Blovi Site", from_email := "u" } "s" "b").envelope_to
      = [TARGET_EMAIL [("SMTP_HOST", "h"), ("SMTP_USER", "u"), ("SMTP_PASS", "p"),
          ("CONTACT_TARGET_EMAIL", "boss@example.com")]] :=
  recipient_priority_and_single_use.2.1
    [("SMTP_HOST", "h"), ("SMTP_USER", "u"), ("SMTP_PASS", "p"),
     ("CONTACT_TARGET_EMAIL", "boss@example.com")]
    "s" "b" SmtpNet.delivered _ rfl

/-! ## Health check -/

theorem digit_isDigit (n : Nat) : (digit n).isDigit = true := by
  have h10 : ∀ m, m < 10 → (Nat.digitChar m).isDigit = true := by decide
  exact h10 _ (Nat.mod_lt _ (by omega))

/-- C9: for every configuration state and clock value, the health-check
handler returns `ok = true`, a timestamp that parses as ISO-8601 UTC,
and the resolved recipient; it is a pure function of environment and
clock (no side effects, no request inputs). -/
theorem health_always_ok (env : Env) (now : PyDatetime) :
    (test env now).ok = true
    ∧ isIso8601Utc ((test env now).time) = true
    ∧ (test env now).target_email = TARGET_EMAIL env := by
  refine ⟨rfl, ?_, rfl⟩
  show isIso8601UtcChars (isoChars now) = true
  unfold isoChars pad4Chars pad2Chars pad6Chars
  by_cases hms : now.microsecond = 0 <;>
    simp [hms, isIso8601UtcChars, isoTailOk, digit_isDigit]
